import Mathlib

/-!
Verification of the service-manager repository's SSH runtime layer.

The definitions below are a shallow embedding of the TypeScript sources:
`src/main/serviceRuntime.ts` (runSsh, startService, stopService,
checkServiceStatus), the bundled TunnelManager, `src/main/main.ts`
(getStatus, toView, toRuntimeConfig, the refreshService handler) and the
jump-capable PortForwardManager.  Remote effects (SSH command results,
socket bind outcomes, timers) are supplied by explicit world/oracle
records, so every definition stays executable.
-/

set_option maxHeartbeats 1000000
set_option linter.unusedVariables false

/-! ## JavaScript primitive semantics

JS string operations are embedded at the `List Char` level by structural
recursion so that every concrete scenario evaluates inside the kernel. -/

/-- `String.prototype.split` with a single-character separator. -/
def splitOnChar (c : Char) : List Char → List (List Char)
  | [] => [[]]
  | x :: xs =>
    match splitOnChar c xs with
    | [] => [[x]]
    | h :: t => if x = c then [] :: h :: t else (x :: h) :: t

/-- `s.split(newline)`. -/
def jsSplitNewline (s : String) : List String :=
  (splitOnChar '\n' s.data).map (fun l => ⟨l⟩)

/-- `s.trim()`. -/
def jsTrim (s : String) : String :=
  ⟨((s.data.dropWhile Char.isWhitespace).reverse.dropWhile Char.isWhitespace).reverse⟩

/-- `s.startsWith(p)`. -/
def jsStartsWith (p s : String) : Bool :=
  p.data.isPrefixOf s.data

/-- Value of a nonempty decimal digit run, `none` otherwise. -/
def digitsToNat (l : List Char) : Option Nat :=
  if l ≠ [] ∧ l.all Char.isDigit then
    some (l.foldl (fun a c => a * 10 + (c.toNat - 48)) 0)
  else none

/-- Models `Number(s)` restricted to the strings produced at its call
sites in this program (decimal digit runs from lsof / the PID sentinel,
or empty output).  `some n` is the integer value; `none` stands for NaN
or a non-integer value, both of which every guard in the program rejects
through `Number.isInteger`. JS `Number` trims surrounding whitespace and
maps the empty string to `0`. -/
def jsNumber (s : String) : Option Int :=
  let t := jsTrim s
  if t.data = [] then some 0
  else (digitsToNat t.data).map Int.ofNat

/-- Models `Number.isInteger(x) && x > 0` applied to a `jsNumber` result. -/
def isPosInt (o : Option Int) : Bool :=
  match o with
  | some n => decide (0 < n)
  | none => false

/-- JS truthiness of an optional number (`undefined` and `0` are falsy). -/
def truthyNum (o : Option Int) : Bool :=
  match o with
  | some n => decide (n ≠ 0)
  | none => false

/-- JS truthiness of an optional string (`undefined` and the empty string
are falsy). -/
def truthyOptStr (o : Option String) : Bool :=
  match o with
  | some s => !s.isEmpty
  | none => false

/-- JS `a || b` on strings (the empty string is falsy). -/
def jsOr (a b : String) : String :=
  if a = "" then b else a

/-! ## runSsh (serviceRuntime.ts)

`runSsh` races four resolution paths into a single `settle` call: the
20-second wall-clock timer, a connection error, an exec-setup error, and
the stream closing with an exit code.  `SshOutcome` names which path won,
together with the stdout/stderr captured up to that point. -/

structure SshResult where
  ok : Bool
  stdout : String
  stderr : String
  code : Int
deriving DecidableEq, Repr

inductive SshOutcome where
  | timeout
  | connError (message : String)
  | execError (message : String)
  | closed (code : Option Int)
deriving DecidableEq, Repr

/-- The `SshResult` which `runSsh` settles with, as a function of the
winning resolution path and the stdout/stderr accumulated so far. -/
def runSshSettle (outcome : SshOutcome) (stdoutAcc stderrAcc : String) : SshResult :=
  match outcome with
  | .timeout =>
      { ok := false, stdout := stdoutAcc
        stderr := jsOr stderrAcc "SSH command timeout", code := -1 }
  | .connError m =>
      { ok := false, stdout := stdoutAcc
        stderr := jsOr m "SSH connection failed", code := -1 }
  | .execError m =>
      { ok := false, stdout := stdoutAcc
        stderr := jsOr m "SSH exec failed", code := -1 }
  | .closed c =>
      { ok := (c.getD 0) = 0, stdout := stdoutAcc
        stderr := stderrAcc, code := c.getD 0 }

/-- `needle` occurs as a substring of `hay`. -/
def strContains (needle hay : String) : Prop :=
  ∃ a b : String, hay = a ++ (needle ++ b)

theorem sshResult_ext (a b : SshResult)
    (h1 : a.ok = b.ok) (h2 : a.stdout = b.stdout)
    (h3 : a.stderr = b.stderr) (h4 : a.code = b.code) : a = b := by
  cases a; cases b; simp_all

/-! ## Shared configuration records (shared/types.ts) -/

inductive AuthType where
  | password
  | privateKey
deriving DecidableEq, Repr

structure JumpHostConfig where
  sshHost : String
  sshPort : Nat
  username : String
  authType : AuthType
  password : Option String
  privateKey : Option String
  passphrase : Option String
deriving DecidableEq, Repr

structure ForwardRule where
  id : String
  localHost : String
  localPort : Nat
  remoteHost : String
  remotePort : Nat
  autoStart : Bool
deriving DecidableEq, Repr

structure ServiceConfig where
  id : String
  name : String
  startCommand : String
  port : Nat
  forwardLocalPort : Option Int
  pid : Option Int
  stdoutPath : Option String
  stderrPath : Option String
deriving DecidableEq, Repr

structure HostConfig where
  id : String
  name : String
  sshHost : String
  sshPort : Nat
  username : String
  authType : AuthType
  password : Option String
  privateKey : Option String
  passphrase : Option String
  privateKeyPath : Option String
  jumpHost : Option JumpHostConfig
  forwards : List ForwardRule
  services : List ServiceConfig
deriving DecidableEq, Repr

inductive ServiceStatus where
  | running
  | stopped
  | starting
  | stopping
  | unknown
  | error
deriving DecidableEq, Repr

/-! ## startService (serviceRuntime.ts) -/

structure StartResult where
  ok : Bool
  pid : Option Int
  stdoutPath : Option String
  stderrPath : Option String
  error : Option String
deriving DecidableEq, Repr

/-- `safeFileFragment`: replace every character outside `[a-zA-Z0-9_-]`
with an underscore. -/
def safeFileFragment (raw : String) : String :=
  ⟨raw.data.map (fun c => if c.isAlphanum || c = '_' || c = '-' then c else '_')⟩

/-- The merged log path `startService` derives from sanitized host and
service names. -/
def serviceLogPath (host : HostConfig) (service : ServiceConfig) : String :=
  "/tmp/service-manager/" ++ safeFileFragment (jsOr host.name host.sshHost)
    ++ "_" ++ safeFileFragment service.name ++ ".log"

/-- Extraction of the backgrounded PID from the start command's stdout:
split into lines, trim each, find the first line starting with the
sentinel marker, strip the six-character marker and apply `Number`.
A missing sentinel line behaves as NaN. -/
def parsePidSentinel (stdout : String) : Option Int :=
  let lines := (jsSplitNewline stdout).map jsTrim
  match lines.find? (fun l => jsStartsWith "__PID:" l) with
  | some l => jsNumber ⟨l.data.drop 6⟩
  | none => none

/-- Remote-side outcomes the start sequence observes: the wrapped start
command itself, then per warm-up round the lsof port probe and the
kill liveness probe, and the three diagnostic commands run after the
poll gives up. -/
structure StartWorld where
  startRet : SshResult
  portProbe : Nat → SshResult
  aliveProbe : Nat → SshResult
  earlyStdout : SshResult
  earlyStderr : SshResult
  envDiag : SshResult

/-- The failure message produced when the warm-up poll exhausts its 15
rounds. -/
def startFailDiagnostic (w : StartWorld) : String :=
  "Process failed to become running within 15s.\nstdout:\n"
    ++ jsOr w.earlyStdout.stdout "(empty)"
    ++ "\nstderr:\n" ++ jsOr w.earlyStderr.stdout (jsOr w.earlyStderr.stderr "(empty)")
    ++ "\nenv-stdout:\n" ++ jsOr w.envDiag.stdout "(empty)"
    ++ "\nenv-stderr:\n" ++ jsOr w.envDiag.stderr "(empty)"

/-- The warm-up poll of `startService` (the `for` loop): in round `i`,
return success with the pid found listening on the service port if any,
else return success with the captured pid if the liveness probe
succeeds, else run a one-second remote sleep and retry, for at most 15
rounds.  The second component counts the sleep commands issued. -/
def startPoll (w : StartWorld) (pid : Int) (stdoutPath stderrPath : String) :
    Nat → Nat → StartResult × Nat
  | _, 0 =>
    ({ ok := false, pid := none, stdoutPath := none, stderrPath := none,
       error := some (startFailDiagnostic w) }, 0)
  | i, fuel + 1 =>
    let pidByPort := jsNumber (jsTrim (w.portProbe i).stdout)
    if isPosInt pidByPort then
      ({ ok := true, pid := pidByPort, stdoutPath := some stdoutPath,
         stderrPath := some stderrPath, error := none }, 0)
    else if (w.aliveProbe i).ok then
      ({ ok := true, pid := some pid, stdoutPath := some stdoutPath,
         stderrPath := some stderrPath, error := none }, 0)
    else
      let r := startPoll w pid stdoutPath stderrPath (i + 1) fuel
      (r.1, r.2 + 1)

/-- `startService`: run the wrapped detach-and-echo-PID command, parse
the PID sentinel, fail with diagnostics if the command failed or no
positive integer PID was captured, otherwise enter the 15-round warm-up
poll.  (The `return` statement after the poll in the source is
unreachable and has no counterpart here.)  The second component counts
the one-second sleeps performed before returning. -/
def startService (host : HostConfig) (service : ServiceConfig) (w : StartWorld) :
    StartResult × Nat :=
  let stdoutPath := serviceLogPath host service
  let stderrPath := stdoutPath
  let ret := w.startRet
  let pid := parsePidSentinel ret.stdout
  if !ret.ok && !isPosInt pid then
    ({ ok := false, pid := none, stdoutPath := none, stderrPath := none,
       error := some ("start command failed\nstdout:\n" ++ jsOr ret.stdout "(empty)"
         ++ "\nstderr:\n" ++ jsOr ret.stderr "(empty)") }, 0)
  else if !isPosInt pid then
    ({ ok := false, pid := none, stdoutPath := none, stderrPath := none,
       error := some ("Failed to capture started PID.\nstdout:\n" ++ jsOr ret.stdout "(empty)"
         ++ "\nstderr:\n" ++ jsOr ret.stderr "(empty)") }, 0)
  else
    startPoll w (pid.getD 0) stdoutPath stderrPath 0 15

/-- Substring occurrences need at least the needle's length. -/
theorem strContains_length {needle hay : String} (h : strContains needle hay) :
    needle.data.length ≤ hay.data.length := by
  obtain ⟨a, b, rfl⟩ := h
  simp [String.data_append]
  omega

/-! Concrete scenario material for the start sequence. -/

def demoHost : HostConfig :=
  { id := "h1", name := "web", sshHost := "203.0.113.7", sshPort := 22
    username := "deploy", authType := .password, password := some "pw"
    privateKey := none, passphrase := none, privateKeyPath := none
    jumpHost := none, forwards := [], services := [] }

def demoService : ServiceConfig :=
  { id := "s1", name := "api", startCommand := "exit 0", port := 8080
    forwardLocalPort := none, pid := none, stdoutPath := none, stderrPath := none }

/-- A start whose command detaches fine and echoes the PID sentinel, but
whose process dies immediately afterwards and whose port is never bound:
every port probe comes back empty and every liveness probe fails. -/
def deadProcessWorld : StartWorld :=
  { startRet := { ok := true, stdout := "__PID:4242\n", stderr := "", code := 0 }
    portProbe := fun _ => { ok := true, stdout := "", stderr := "", code := 0 }
    aliveProbe := fun _ => { ok := false, stdout := "", stderr := "", code := 1 }
    earlyStdout := { ok := true, stdout := "", stderr := "", code := 0 }
    earlyStderr := { ok := true, stdout := "", stderr := "", code := 0 }
    envDiag := { ok := true, stdout := "", stderr := "", code := 0 } }

/-- C1: the claim (and the repository's AGENTS guide, which demands that
start be non-blocking after PID capture with port checks deferred past
the return) says `startService` returns success as soon as the PID
sentinel is parsed, without a blocking wait tied to the exposed port.
The code instead runs a warm-up poll after parsing the sentinel: on
`deadProcessWorld` the sentinel parses to pid 4242, yet `startService`
issues all 15 one-second remote sleeps of the poll and then returns
failure rather than an immediate success with that pid. -/
theorem startService_blocks_after_pid_capture :
    parsePidSentinel deadProcessWorld.startRet.stdout = some 4242 ∧
    (startService demoHost demoService deadProcessWorld).1.ok = false ∧
    (startService demoHost demoService deadProcessWorld).2 = 15 := by
  decide

/-- C9: counterexample to the claim as stated.  A command that has
already emitted partial stderr before the 20-second timeout expires is
settled with that partial stderr verbatim: the result's stderr is
exactly the captured text and contains no timeout marker at all; the
marker only ever replaces an empty captured stderr. -/
theorem runSsh_timeout_marker_missing :
    (runSshSettle .timeout "abc" "warn") =
      { ok := false, stdout := "abc", stderr := "warn", code := -1 } ∧
    ¬ strContains "timeout" (runSshSettle .timeout "abc" "warn").stderr := by
  refine ⟨rfl, ?_⟩
  intro h
  rw [show (runSshSettle .timeout "abc" "warn").stderr = "warn" from rfl] at h
  have := strContains_length h
  simp at this

/-- C9 (amended): on expiry of the 20-second wall-clock timer, `runSsh`
settles with a failure result (`ok = false`, exit code `-1`) carrying
the partial stdout captured so far; its stderr field is the captured
partial stderr when that is nonempty, and otherwise the marker string
"SSH command timeout" (which contains the word "timeout"). -/
theorem runSsh_timeout_partial_output (so se : String) :
    (runSshSettle .timeout so se).ok = false ∧
    (runSshSettle .timeout so se).stdout = so ∧
    (runSshSettle .timeout so se).code = -1 ∧
    (se = "" → (runSshSettle .timeout so se).stderr = "SSH command timeout" ∧
      strContains "timeout" (runSshSettle .timeout so se).stderr) ∧
    (se ≠ "" → (runSshSettle .timeout so se).stderr = se) := by
  refine ⟨rfl, rfl, rfl, ?_, ?_⟩
  · intro h
    subst h
    exact ⟨rfl, "SSH command ", "", rfl⟩
  · intro h
    simp [runSshSettle, jsOr, h]

theorem runSsh_timeout_partial_output_witness :
    (runSshSettle .timeout "a" "").stderr = "SSH command timeout" ∧
    (runSshSettle .timeout "x" "warn").stderr = "warn" :=
  ⟨((runSsh_timeout_partial_output "a" "").2.2.2.1 rfl).1,
   (runSsh_timeout_partial_output "x" "warn").2.2.2.2 (by decide)⟩

/-! ## checkServiceStatus (serviceRuntime.ts) -/

structure ServiceProbeResult where
  status : ServiceStatus
  pid : Option Int
  error : Option String
deriving DecidableEq, Repr

/-- Remote results seen by one status check: the lsof listener probe on
the exposed port, then the kill liveness probe on the recorded pid. -/
structure StatusWorld where
  portProbe : SshResult
  aliveProbe : SshResult

/-- `checkServiceStatus`: the port probe is authoritative when it finds
a listener pid; with no listener and no recorded pid the service is
stopped; otherwise a liveness probe decides between running (success),
stopped (exit code 1) and error (any other failure, carrying the
trimmed remote stderr or a generic fallback). -/
def checkServiceStatus (host : HostConfig) (service : ServiceConfig) (w : StatusWorld) :
    ServiceProbeResult :=
  let pidByPort := jsNumber (jsTrim w.portProbe.stdout)
  if isPosInt pidByPort then
    { status := .running, pid := pidByPort, error := none }
  else if !truthyNum service.pid then
    { status := .stopped, pid := none, error := none }
  else
    let ret := w.aliveProbe
    if ret.ok then
      { status := .running, pid := service.pid, error := none }
    else if ret.code = 1 then
      { status := .stopped, pid := none, error := none }
    else
      { status := .error, pid := none
        error := some (jsOr (jsTrim ret.stderr) "status check failed") }

/-- C6: `checkServiceStatus` first probes for a listener on the exposed
port and returns running with the discovered pid when one is found;
otherwise a service without a recorded pid is stopped; with a recorded
pid, a successful liveness probe yields running with that pid, exit
code 1 (no such process) yields stopped, and any other failure yields
error carrying the trimmed remote stderr. -/
theorem checkServiceStatus_probe_order (host : HostConfig) (service : ServiceConfig)
    (w : StatusWorld) :
    (∀ p : Int, 0 < p → jsNumber (jsTrim w.portProbe.stdout) = some p →
      checkServiceStatus host service w = ⟨.running, some p, none⟩)
  ∧ (isPosInt (jsNumber (jsTrim w.portProbe.stdout)) = false → service.pid = none →
      checkServiceStatus host service w = ⟨.stopped, none, none⟩)
  ∧ (∀ q : Int, isPosInt (jsNumber (jsTrim w.portProbe.stdout)) = false →
      service.pid = some q → q ≠ 0 → w.aliveProbe.ok = true →
      checkServiceStatus host service w = ⟨.running, some q, none⟩)
  ∧ (∀ q : Int, isPosInt (jsNumber (jsTrim w.portProbe.stdout)) = false →
      service.pid = some q → q ≠ 0 → w.aliveProbe.ok = false → w.aliveProbe.code = 1 →
      checkServiceStatus host service w = ⟨.stopped, none, none⟩)
  ∧ (∀ q : Int, isPosInt (jsNumber (jsTrim w.portProbe.stdout)) = false →
      service.pid = some q → q ≠ 0 → w.aliveProbe.ok = false → w.aliveProbe.code ≠ 1 →
      (checkServiceStatus host service w).status = .error ∧
      (jsTrim w.aliveProbe.stderr ≠ "" →
        (checkServiceStatus host service w).error = some (jsTrim w.aliveProbe.stderr))) := by
  refine ⟨?_, ?_, ?_, ?_, ?_⟩
  · intro p hp hparse
    simp [checkServiceStatus, hparse, isPosInt, hp]
  · intro hport hpid
    simp [checkServiceStatus, hport, hpid, truthyNum]
  · intro q hport hpid hq halive
    simp [checkServiceStatus, hport, hpid, truthyNum, hq, halive]
  · intro q hport hpid hq halive hcode
    simp [checkServiceStatus, hport, hpid, truthyNum, hq, halive, hcode]
  · intro q hport hpid hq halive hcode
    refine ⟨?_, ?_⟩
    · simp [checkServiceStatus, hport, hpid, truthyNum, hq, halive, hcode]
    · intro hne
      simp [checkServiceStatus, hport, hpid, truthyNum, hq, halive, hcode, jsOr, hne]

def sshQuiet : SshResult := { ok := true, stdout := "", stderr := "", code := 0 }

theorem checkServiceStatus_probe_order_witness :
    checkServiceStatus demoHost demoService
        ⟨{ ok := true, stdout := "7\n", stderr := "", code := 0 }, sshQuiet⟩
      = ⟨.running, some 7, none⟩
  ∧ checkServiceStatus demoHost demoService ⟨sshQuiet, sshQuiet⟩ = ⟨.stopped, none, none⟩
  ∧ checkServiceStatus demoHost { demoService with pid := some 9 } ⟨sshQuiet, sshQuiet⟩
      = ⟨.running, some 9, none⟩
  ∧ checkServiceStatus demoHost { demoService with pid := some 9 }
        ⟨sshQuiet, { ok := false, stdout := "", stderr := "", code := 1 }⟩
      = ⟨.stopped, none, none⟩
  ∧ (checkServiceStatus demoHost { demoService with pid := some 9 }
        ⟨sshQuiet, { ok := false, stdout := "", stderr := " denied ", code := 255 }⟩).error
      = some "denied" := by
  refine ⟨?_, ?_, ?_, ?_, ?_⟩
  · exact (checkServiceStatus_probe_order demoHost demoService _).1 7 (by decide) (by decide)
  · exact (checkServiceStatus_probe_order demoHost demoService _).2.1 (by decide) rfl
  · exact (checkServiceStatus_probe_order demoHost _ _).2.2.1 9 (by decide) rfl
      (by decide) rfl
  · exact (checkServiceStatus_probe_order demoHost _ _).2.2.2.1 9 (by decide) rfl
      (by decide) rfl rfl
  · exact ((checkServiceStatus_probe_order demoHost _ _).2.2.2.2 9 (by decide) rfl
      (by decide) rfl (by decide)).2 (by decide)

/-! ## stopService (serviceRuntime.ts) -/

inductive KillTarget where
  | group (gid : Int)
  | proc (pid : Int)
deriving DecidableEq, Repr

/-- Remote-shell semantics of the single command `stopService` builds:
query the process-group id column for the pid with spaces stripped (an
empty result models failed group resolution), and send SIGTERM to the
whole group when one was resolved, else SIGTERM to the pid directly. -/
def stopSignalTarget (pgidOf : Int → Option Int) (pid : Int) : KillTarget :=
  match pgidOf pid with
  | some g => .group g
  | none => .proc pid

/-- Remote side of one stop call: the group-id lookup table and the
result of the kill command. -/
structure StopWorld where
  pgidOf : Int → Option Int
  killRet : SshResult

structure StopOutcome where
  ok : Bool
  error : Option String
  signalled : Option KillTarget
deriving DecidableEq, Repr

/-- `stopService`: fail immediately without a pid, otherwise run the
group-resolve-and-SIGTERM command and surface a failed kill with the
trimmed remote stderr (or a generic fallback naming the pid). -/
def stopService (host : HostConfig) (service : ServiceConfig) (w : StopWorld) : StopOutcome :=
  if !truthyNum service.pid then
    { ok := false, error := some "PID is empty; cannot stop service.", signalled := none }
  else
    let pid := service.pid.getD 0
    let target := stopSignalTarget w.pgidOf pid
    if !w.killRet.ok then
      { ok := false
        error := some (jsOr (jsTrim w.killRet.stderr)
          ("kill " ++ toString pid ++ " (process group) failed"))
        signalled := some target }
    else
      { ok := true, error := none, signalled := some target }

/-- C8: with no pid recorded, `stopService` fails immediately with the
exact message `PID is empty; cannot stop service.`; with a pid it sends
SIGTERM to the resolved process group, falls back to signalling the pid
directly when group resolution yields nothing, and reports a signalling
failure with the trimmed remote stderr. -/
theorem stopService_group_kill (host : HostConfig) (service : ServiceConfig) (w : StopWorld) :
    (service.pid = none →
      stopService host service w =
        ⟨false, some "PID is empty; cannot stop service.", none⟩)
  ∧ (∀ p g : Int, service.pid = some p → p ≠ 0 → w.pgidOf p = some g →
      (stopService host service w).signalled = some (.group g))
  ∧ (∀ p : Int, service.pid = some p → p ≠ 0 → w.pgidOf p = none →
      (stopService host service w).signalled = some (.proc p))
  ∧ (∀ p : Int, service.pid = some p → p ≠ 0 → w.killRet.ok = false →
      (stopService host service w).ok = false ∧
      (jsTrim w.killRet.stderr ≠ "" →
        (stopService host service w).error = some (jsTrim w.killRet.stderr))) := by
  refine ⟨?_, ?_, ?_, ?_⟩
  · intro hpid
    simp [stopService, hpid, truthyNum]
  · intro p g hpid hp hg
    simp [stopService, hpid, truthyNum, hp, stopSignalTarget, hg]
    split <;> simp
  · intro p hpid hp hg
    simp [stopService, hpid, truthyNum, hp, stopSignalTarget, hg]
    split <;> simp
  · intro p hpid hp hkill
    refine ⟨?_, ?_⟩
    · simp [stopService, hpid, truthyNum, hp, hkill]
    · intro hne
      simp [stopService, hpid, truthyNum, hp, hkill, jsOr, hne]

theorem stopService_group_kill_witness :
    stopService demoHost demoService ⟨fun _ => none, sshQuiet⟩ =
      ⟨false, some "PID is empty; cannot stop service.", none⟩
  ∧ (stopService demoHost { demoService with pid := some 9 }
      ⟨fun p => if p = 9 then some 31 else none, sshQuiet⟩).signalled = some (.group 31)
  ∧ (stopService demoHost { demoService with pid := some 9 }
      ⟨fun _ => none, sshQuiet⟩).signalled = some (.proc 9)
  ∧ (stopService demoHost { demoService with pid := some 9 }
      ⟨fun _ => none, { ok := false, stdout := "", stderr := " nope\n", code := 1 }⟩).error
      = some "nope" := by
  refine ⟨?_, ?_, ?_, ?_⟩
  · exact (stopService_group_kill demoHost demoService _).1 rfl
  · exact (stopService_group_kill demoHost _ _).2.1 9 31 rfl (by decide) (by decide)
  · exact (stopService_group_kill demoHost _ _).2.2.1 9 rfl (by decide) rfl
  · exact ((stopService_group_kill demoHost _ _).2.2.2 9 rfl (by decide) rfl).2 (by decide)

/-! ## getStatus and toView (main.ts) -/

structure RuntimeStatusEntry where
  status : ServiceStatus
  pid : Option Int
  error : Option String
  updatedAt : Option String
deriving DecidableEq, Repr

inductive ForwardState where
  | none
  | ok
  | error
deriving DecidableEq, Repr

/-- `getStatus`: merge the in-memory runtime entry for a service with
the persisted default pid.  With no runtime entry, the status is
`running` exactly when a (truthy) persisted pid exists, else `stopped`;
the reported pid falls back to the persisted one.  This is a pure map
lookup: no remote probe is involved. -/
def getStatus (entry : Option RuntimeStatusEntry) (defaultPid : Option Int) :
    RuntimeStatusEntry :=
  { status :=
      match entry with
      | some e => e.status
      | none => if truthyNum defaultPid then .running else .stopped
    pid :=
      match entry with
      | some e => match e.pid with
        | some p => some p
        | none => defaultPid
      | none => defaultPid
    error := entry.bind (·.error)
    updatedAt := entry.bind (·.updatedAt) }

structure ServiceView where
  status : ServiceStatus
  pid : Option Int
  error : Option String
  updatedAt : Option String
  forwardState : ForwardState
  forwardError : Option String
deriving DecidableEq, Repr

/-- The per-service part of `toView`: combine `getStatus` (seeded with
the persisted pid) with the forward-state table entry, forcing the
forward indicator to `none` when no forward local port is configured. -/
def toViewService (runtimeEntry : Option RuntimeStatusEntry)
    (forwardEntry : Option (ForwardState × Option String)) (service : ServiceConfig) :
    ServiceView :=
  let status := getStatus runtimeEntry service.pid
  let forward := forwardEntry.getD (.none, Option.none)
  { status := status.status, pid := status.pid, error := status.error
    updatedAt := status.updatedAt
    forwardState := if truthyNum service.forwardLocalPort then forward.1 else .none
    forwardError := if truthyNum service.forwardLocalPort then forward.2 else Option.none }

/-- C10: in the list-hosts view, a service with a persisted pid but no
in-memory runtime entry is shown as running with that pid — purely from
the lookup tables, with no remote probe — and a service with neither a
runtime entry nor a persisted pid is shown as stopped. -/
theorem toView_persisted_pid (service : ServiceConfig)
    (fw : Option (ForwardState × Option String)) :
    (∀ p : Int, p ≠ 0 → service.pid = some p →
      (toViewService none fw service).status = .running ∧
      (toViewService none fw service).pid = some p)
  ∧ (service.pid = none →
      (toViewService none fw service).status = .stopped ∧
      (toViewService none fw service).pid = none) := by
  constructor
  · intro p hp hpid
    simp [toViewService, getStatus, hpid, truthyNum, hp]
  · intro hpid
    simp [toViewService, getStatus, hpid, truthyNum]

theorem toView_persisted_pid_witness :
    ((toViewService none none { demoService with pid := some 77 }).status = .running ∧
      (toViewService none none { demoService with pid := some 77 }).pid = some 77)
  ∧ ((toViewService none none demoService).status = .stopped ∧
      (toViewService none none demoService).pid = none) :=
  ⟨(toView_persisted_pid { demoService with pid := some 77 } none).1 77 (by decide) rfl,
   (toView_persisted_pid demoService none).2 rfl⟩

/-! ## The refreshService IPC handler (main.ts)

The handler is modelled after the host/service lookup has succeeded.
Its observable behaviour is the final value of the stored pid, plus the
ordered list of side effects: store writes, port-forward manager calls,
forward-status broadcasts and service-status broadcasts.  The
`runtimeStatus` entry for the service is threaded through explicitly
because `emitForwardStatus` re-reads and re-writes it. -/

inductive RefreshAction where
  | fwdStart
  | fwdStop
  | emitForward (state : ForwardState) (err : Option String)
  | emitService (status : ServiceStatus) (pid : Option Int) (err : Option String)
  | storeUpsert
deriving DecidableEq, Repr

/-- `emitForwardStatus`: store the forward state, then re-broadcast the
current runtime entry (status falling back to `unknown`) through
`emitStatus`. -/
def emitForwardAct (st : Option RuntimeStatusEntry) (nowIso : String)
    (state : ForwardState) (err : Option String) :
    Option RuntimeStatusEntry × List RefreshAction :=
  let status := match st with
    | some e => e.status
    | none => ServiceStatus.unknown
  let pid := st.bind (·.pid)
  let errc := st.bind (·.error)
  (some ⟨status, pid, errc, some nowIso⟩,
   [.emitForward state err, .emitService status pid errc])

/-- The body of the `refreshService` IPC handler: run
`checkServiceStatus`; keep broadcasting `starting` while a start is in
flight and the probe still says stopped; write the discovered pid back
to the store when a running probe reports a pid differing from the
stored one; maintain the optional port-forward; clear the pid and the
forward when the probe says stopped; finally broadcast the probe
result.  `fwdFails` is the outcome of `portForwardManager.start`
(`some` is the thrown message). Returns the stored pid after the
handler and the ordered side effects. -/
def refreshServiceModel (host : HostConfig) (service : ServiceConfig)
    (currentEntry : Option RuntimeStatusEntry) (w : StatusWorld)
    (fwdFails : Option String) (nowIso : String) :
    Option Int × List RefreshAction :=
  let result := checkServiceStatus host service w
  if currentEntry.map (·.status) = some ServiceStatus.starting
      ∧ result.status = .stopped then
    (service.pid, [.emitService .starting service.pid none])
  else
    let updatePid := result.status = .running ∧ truthyNum result.pid
      ∧ result.pid ≠ service.pid
    let pid1 := if updatePid then result.pid else service.pid
    let acts1 : List RefreshAction := if updatePid then [.storeUpsert] else []
    let stage2 :=
      if result.status = .running ∧ truthyNum service.forwardLocalPort then
        match fwdFails with
        | none =>
          let r := emitForwardAct currentEntry nowIso .ok none
          (r.1, RefreshAction.fwdStart :: r.2)
        | some msg =>
          let r := emitForwardAct currentEntry nowIso .error (some msg)
          (r.1, RefreshAction.fwdStart :: r.2)
      else if !truthyNum service.forwardLocalPort then
        emitForwardAct currentEntry nowIso .none none
      else
        (currentEntry, [])
    let stage3 :=
      if result.status = .stopped ∧ truthyNum pid1 then
        let r := emitForwardAct stage2.1 nowIso .none none
        ((Option.none : Option Int), RefreshAction.fwdStop :: r.2 ++ [RefreshAction.storeUpsert])
      else
        (pid1, [])
    (stage3.1,
     acts1 ++ stage2.2 ++ stage3.2
       ++ [.emitService result.status result.pid result.error])

theorem getLast_append_single {α : Type} (l : List α) (a : α) :
    (l ++ [a]).getLast? = some a := by
  induction l with
  | nil => rfl
  | cons x xs ih =>
    cases xs with
    | nil => rfl
    | cons y ys => simp [List.getLast?]

/-- C7: whenever the refresh handler's port probe finds the exposed
port listened on by a pid different from the stored one, the handler
stores the discovered pid (writing it back through the store), and the
final broadcast for the service reports status running with that pid. -/
theorem refreshService_updates_discovered_pid (host : HostConfig) (service : ServiceConfig)
    (currentEntry : Option RuntimeStatusEntry) (w : StatusWorld)
    (fwdFails : Option String) (nowIso : String) :
    ∀ p : Int, 0 < p → jsNumber (jsTrim w.portProbe.stdout) = some p →
      service.pid ≠ some p →
      (refreshServiceModel host service currentEntry w fwdFails nowIso).1 = some p ∧
      RefreshAction.storeUpsert
        ∈ (refreshServiceModel host service currentEntry w fwdFails nowIso).2 ∧
      (refreshServiceModel host service currentEntry w fwdFails nowIso).2.getLast?
        = some (.emitService .running (some p) none) := by
  intro p hp hparse hne
  have hres : checkServiceStatus host service w = ⟨.running, some p, none⟩ := by
    simp [checkServiceStatus, hparse, isPosInt, hp]
  have hneq : some p ≠ service.pid := fun h => hne h.symm
  unfold refreshServiceModel
  rw [hres]
  by_cases hf : truthyNum service.forwardLocalPort
  · cases fwdFails with
    | none =>
      simp [truthyNum, hp.ne', hneq, hf, emitForwardAct, getLast_append_single,
        List.getLast?]
    | some msg =>
      simp [truthyNum, hp.ne', hneq, hf, emitForwardAct, getLast_append_single,
        List.getLast?]
  · simp [truthyNum, hp.ne', hneq, hf, emitForwardAct, getLast_append_single,
      List.getLast?]

theorem refreshService_updates_discovered_pid_witness :
    (refreshServiceModel demoHost { demoService with pid := some 9 } none
        ⟨{ ok := true, stdout := "5\n", stderr := "", code := 0 }, sshQuiet⟩
        none "t").1 = some 5 ∧
    RefreshAction.storeUpsert
      ∈ (refreshServiceModel demoHost { demoService with pid := some 9 } none
          ⟨{ ok := true, stdout := "5\n", stderr := "", code := 0 }, sshQuiet⟩
          none "t").2 ∧
    (refreshServiceModel demoHost { demoService with pid := some 9 } none
        ⟨{ ok := true, stdout := "5\n", stderr := "", code := 0 }, sshQuiet⟩
        none "t").2.getLast? = some (.emitService .running (some 5) none) :=
  refreshService_updates_discovered_pid demoHost { demoService with pid := some 9 }
    none ⟨{ ok := true, stdout := "5\n", stderr := "", code := 0 }, sshQuiet⟩
    none "t" 5 (by decide) (by decide) (by decide)

/-! ## PortForwardManager (jump-capable variant) and the tunnel-layer
transport

`ConnectConfig` mirrors the ssh2 connect options used here; `sock`
carries the relayed byte stream obtained from a jump session's
forward-out channel, `none` meaning a raw TCP socket to `host:port`. -/

structure SockSource where
  srcHost : String
  srcPort : Nat
  dstHost : String
  dstPort : Nat
deriving DecidableEq, Repr

structure ConnectConfig where
  host : String
  port : Nat
  username : String
  keepaliveInterval : Nat
  keepaliveCountMax : Nat
  readyTimeout : Nat
  password : Option String
  privateKey : Option String
  passphrase : Option String
  sock : Option SockSource
deriving DecidableEq, Repr

/-- Connection-phase events of `PortForwardManager.start`, in execution
order: authenticate a session, request a forward-out channel on the
jump session, authenticate the target session. -/
inductive PFEv where
  | jumpAuth (cfg : ConnectConfig)
  | jumpForwardOut (srcHost : String) (srcPort : Nat) (dstHost : String) (dstPort : Nat)
  | targetAuth (cfg : ConnectConfig)
deriving DecidableEq, Repr

/-- `PortForwardManager.toConnectConfig`: target auth options (password,
or the pasted/imported private key with optional passphrase), read from
disk when only a key path is configured.  `readFile` is the filesystem
oracle. -/
def pfToConnectConfig (host : HostConfig) (readFile : String → String) :
    Except String ConnectConfig :=
  let base : ConnectConfig :=
    { host := host.sshHost, port := host.sshPort, username := host.username
      keepaliveInterval := 10000, keepaliveCountMax := 6, readyTimeout := 20000
      password := none, privateKey := none, passphrase := none, sock := none }
  if host.authType = .password then
    .ok { base with password := host.password }
  else
    let privateKey : Option String :=
      if truthyOptStr (host.privateKey.map jsTrim) then host.privateKey
      else match host.privateKeyPath with
        | some path => some (readFile path)
        | none => none
    match privateKey with
    | none => .error "Private key is required for port forward."
    | some key =>
      .ok { base with
            privateKey := some key,
            passphrase := if truthyOptStr host.passphrase then host.passphrase else none }

/-- `PortForwardManager.toJumpConnectConfig`: jump auth options under
the same auth rules (password, or a pasted private key with optional
passphrase; no key-path fallback for jump hosts). -/
def pfToJumpConnectConfig (host : HostConfig) : Except String ConnectConfig :=
  match host.jumpHost with
  | none => .error "Jump host config is missing."
  | some jump =>
    let base : ConnectConfig :=
      { host := jump.sshHost, port := jump.sshPort, username := jump.username
        keepaliveInterval := 10000, keepaliveCountMax := 6, readyTimeout := 20000
        password := none, privateKey := none, passphrase := none, sock := none }
    if jump.authType = .password then
      .ok { base with password := jump.password }
    else if !truthyOptStr (jump.privateKey.map jsTrim) then
      .error "Jump host private key is required for port forward."
    else
      .ok { base with
            privateKey := jump.privateKey,
            passphrase := if truthyOptStr jump.passphrase then jump.passphrase else none }

/-- The connection-establishment phase of `PortForwardManager.start`:
build the target connect options; when the host has a jump descriptor,
first authenticate to the jump host, then have the jump session open a
forward-out byte stream to the target's host:port, and attach that
stream as the target session's socket; finally authenticate the target
session.  Returns the ordered events and the target connect options. -/
def pfConnectPhase (host : HostConfig) (readFile : String → String) :
    Except String (List PFEv × ConnectConfig) := do
  let base ← pfToConnectConfig host readFile
  match host.jumpHost with
  | none => .ok ([.targetAuth base], base)
  | some _ =>
    let jumpCfg ← pfToJumpConnectConfig host
    let stream : SockSource :=
      { srcHost := "127.0.0.1", srcPort := 0, dstHost := host.sshHost, dstPort := host.sshPort }
    let targetCfg := { base with sock := some stream }
    .ok ([.jumpAuth jumpCfg,
          .jumpForwardOut "127.0.0.1" 0 host.sshHost host.sshPort,
          .targetAuth targetCfg], targetCfg)

/-- Modelled from the spec: the current `tunnelManager.ts` is not under
src — the bundled TunnelManager copy declares a `ForwardRuntimeConfig`
without the `jumpHost` field that its own caller (`toRuntimeConfig` in
main.ts) populates, so it cannot be the compiled version, and the
jump-handling body of the tunnel layer's connect path is missing.  Per
spec section 4.1, when the descriptor carries a jump configuration the
transport first authenticates to the jump host, then requests a
forward-out byte stream to the target host:port, then performs the
target handshake over that relayed stream instead of a raw socket. -/
def tunnelConnectPhaseSpec (target : ConnectConfig) (jump : Option ConnectConfig) :
    List PFEv × ConnectConfig :=
  match jump with
  | none => ([.targetAuth target], target)
  | some jumpCfg =>
    let stream : SockSource :=
      { srcHost := "127.0.0.1", srcPort := 0, dstHost := target.host, dstPort := target.port }
    let targetCfg := { target with sock := some stream }
    ([.jumpAuth jumpCfg,
      .jumpForwardOut "127.0.0.1" 0 target.host target.port,
      .targetAuth targetCfg], targetCfg)

theorem pfToJumpConnectConfig_fields (host : HostConfig) (jump : JumpHostConfig)
    (hj : host.jumpHost = some jump) (c : ConnectConfig)
    (h : pfToJumpConnectConfig host = .ok c) :
    c.host = jump.sshHost ∧ c.port = jump.sshPort ∧ c.sock = none := by
  unfold pfToJumpConnectConfig at h
  rw [hj] at h
  by_cases ha : jump.authType = .password
  · simp [ha] at h
    subst h
    simp
  · by_cases hk : truthyOptStr (jump.privateKey.map jsTrim)
    · simp [ha, hk] at h
      subst h
      simp
    · simp [ha, hk] at h

/-- C2: a connection attempt by the tunnel/port-forward layer for a
host with a jump descriptor first authenticates to the jump host, then
has the jump session open a forward-out byte stream to the target
host:port, and performs the target authentication handshake over that
relayed stream (a `sock` is attached) instead of a raw socket.  The
first conjunct proves this for the jump-capable PortForwardManager
source; the second for the spec-modelled tunnel-layer transport. -/
theorem jump_chain_connect_order (host : HostConfig) (readFile : String → String)
    (jump : JumpHostConfig) (hj : host.jumpHost = some jump) :
    (∀ evs tcfg, pfConnectPhase host readFile = .ok (evs, tcfg) →
      ∃ jcfg, pfToJumpConnectConfig host = .ok jcfg ∧
        jcfg.host = jump.sshHost ∧ jcfg.port = jump.sshPort ∧ jcfg.sock = none ∧
        tcfg.sock = some ⟨"127.0.0.1", 0, host.sshHost, host.sshPort⟩ ∧
        evs = [.jumpAuth jcfg,
               .jumpForwardOut "127.0.0.1" 0 host.sshHost host.sshPort,
               .targetAuth tcfg])
  ∧ (∀ target jcfg : ConnectConfig,
      (tunnelConnectPhaseSpec target (some jcfg)).1 =
        [.jumpAuth jcfg,
         .jumpForwardOut "127.0.0.1" 0 target.host target.port,
         .targetAuth { target with sock := some ⟨"127.0.0.1", 0, target.host, target.port⟩ }] ∧
      (tunnelConnectPhaseSpec target (some jcfg)).2.sock =
        some ⟨"127.0.0.1", 0, target.host, target.port⟩) := by
  constructor
  · intro evs tcfg h
    unfold pfConnectPhase at h
    cases hbase : pfToConnectConfig host readFile with
    | error e =>
      rw [hbase] at h
      simp [bind, Except.bind] at h
    | ok base =>
      rw [hbase] at h
      rw [hj] at h
      cases hjc : pfToJumpConnectConfig host with
      | error e =>
        rw [hjc] at h
        simp [bind, Except.bind] at h
      | ok jcfg =>
        rw [hjc] at h
        obtain ⟨hh, hp, hs⟩ := pfToJumpConnectConfig_fields host jump hj jcfg hjc
        simp only [bind, Except.bind, Except.ok.injEq, Prod.mk.injEq] at h
        obtain ⟨hevs, htcfg⟩ := h
        refine ⟨jcfg, rfl, hh, hp, hs, ?_, ?_⟩
        · rw [← htcfg]
        · rw [← hevs, ← htcfg]
  · intro target jcfg
    exact ⟨rfl, rfl⟩

def demoJump : JumpHostConfig :=
  { sshHost := "gw.example", sshPort := 2222, username := "jump"
    authType := .password, password := some "jpw", privateKey := none, passphrase := none }

def demoJumpHost : HostConfig := { demoHost with jumpHost := some demoJump }

def c2JumpCfg : ConnectConfig :=
  { host := "gw.example", port := 2222, username := "jump"
    keepaliveInterval := 10000, keepaliveCountMax := 6, readyTimeout := 20000
    password := some "jpw", privateKey := none, passphrase := none, sock := none }

def c2TargetCfg : ConnectConfig :=
  { host := "203.0.113.7", port := 22, username := "deploy"
    keepaliveInterval := 10000, keepaliveCountMax := 6, readyTimeout := 20000
    password := some "pw", privateKey := none, passphrase := none
    sock := some ⟨"127.0.0.1", 0, "203.0.113.7", 22⟩ }

def c2Evs : List PFEv :=
  [.jumpAuth c2JumpCfg, .jumpForwardOut "127.0.0.1" 0 "203.0.113.7" 22,
   .targetAuth c2TargetCfg]

theorem jump_chain_connect_order_witness :
    ∃ jcfg, pfToJumpConnectConfig demoJumpHost = .ok jcfg ∧
      jcfg.host = demoJump.sshHost ∧ jcfg.port = demoJump.sshPort ∧ jcfg.sock = none ∧
      c2TargetCfg.sock = some ⟨"127.0.0.1", 0, demoJumpHost.sshHost, demoJumpHost.sshPort⟩ ∧
      c2Evs = [.jumpAuth jcfg,
               .jumpForwardOut "127.0.0.1" 0 demoJumpHost.sshHost demoJumpHost.sshPort,
               .targetAuth c2TargetCfg] :=
  (jump_chain_connect_order demoJumpHost (fun _ => "") demoJump rfl).1 c2Evs c2TargetCfg
    rfl

/-! ## TunnelManager (per-rule tunnel state machine)

State is four per-rule tables (active connection handle, last broadcast
status, most recently supplied configuration, pending reconnect timer
deadline).  Socket/SSH outcomes for one start attempt come from a
`TunnelStartWorld` oracle; emitted `status-changed` events and
connection open/close effects are returned as an ordered event list. -/

inductive TunnelStatus where
  | stopped
  | starting
  | running
  | stopping
  | error
deriving DecidableEq, Repr

structure TunnelStatusChange where
  hostId : String
  forwardId : String
  status : TunnelStatus
  error : Option String
  reconnectAt : Option Nat
deriving DecidableEq, Repr

/-- The runtime configuration `main.ts` builds per forward rule.  The
`jumpHost` field is populated by `toRuntimeConfig`; the bundled
TunnelManager copy never reads it (its connect path attaches no
relayed socket). -/
structure ForwardRuntimeConfig where
  id : String
  sshHost : String
  sshPort : Nat
  username : String
  authType : AuthType
  password : Option String
  privateKey : Option String
  passphrase : Option String
  jumpHost : Option JumpHostConfig
  localHost : String
  localPort : Nat
  remoteHost : String
  remotePort : Nat
deriving DecidableEq, Repr

/-- `resolveHostPrivateKey` (main.ts): the pasted key when nonblank,
else the key file's content when a path is configured. -/
def resolveHostPrivateKey (host : HostConfig) (readFile : String → String) : Option String :=
  if truthyOptStr (host.privateKey.map jsTrim) then host.privateKey
  else match host.privateKeyPath with
    | some path => some (readFile path)
    | none => none

/-- `toRuntimeConfig` (main.ts): flatten a host and one forward rule
into the tunnel runtime configuration, stripping the jump host's
private key under password auth. -/
def toRuntimeConfig (host : HostConfig) (forward : ForwardRule)
    (readFile : String → String) : ForwardRuntimeConfig :=
  { id := forward.id, sshHost := host.sshHost, sshPort := host.sshPort
    username := host.username, authType := host.authType, password := host.password
    privateKey := resolveHostPrivateKey host readFile, passphrase := host.passphrase
    jumpHost := host.jumpHost.map fun j =>
      { j with privateKey := if j.authType = .privateKey then j.privateKey else none }
    localHost := forward.localHost, localPort := forward.localPort
    remoteHost := forward.remoteHost, remotePort := forward.remotePort }

/-- `TunnelManager.toConnectConfig` as bundled in src: target connect
options only — password or key auth with optional passphrase — and no
relayed socket (`sock := none`) regardless of any jump configuration. -/
def tmToConnectConfig (config : ForwardRuntimeConfig) : ConnectConfig :=
  let base : ConnectConfig :=
    { host := config.sshHost, port := config.sshPort, username := config.username
      keepaliveInterval := 10000, keepaliveCountMax := 6, readyTimeout := 20000
      password := none, privateKey := none, passphrase := none, sock := none }
  if config.authType = .password then
    { base with password := some (config.password.getD "") }
  else
    { base with
      privateKey := some (config.privateKey.getD ""),
      passphrase := if truthyOptStr config.passphrase then config.passphrase else none }

/-- Pointwise update of a per-rule table. -/
def upd {α : Type} (f : String → Option α) (k : String) (v : Option α) :
    String → Option α :=
  fun x => if x = k then v else f x

structure TMState where
  running : String → Option Nat
  statuses : String → Option TunnelStatusChange
  configs : String → Option ForwardRuntimeConfig
  reconnectTimers : String → Option Nat

def TMState.initial : TMState :=
  { running := fun _ => none, statuses := fun _ => none
    configs := fun _ => none, reconnectTimers := fun _ => none }

inductive TMEvent where
  | statusChanged (change : TunnelStatusChange)
  | connOpened (id : String)
  | connClosed (id : String)
deriving DecidableEq, Repr

/-- The rule a runtime event belongs to. -/
def eventId : TMEvent → String
  | .statusChanged c => c.forwardId
  | .connOpened id => id
  | .connClosed id => id

/-- `updateStatus`: store the merged status record (keeping the known
hostId) and emit one `status-changed` event. -/
def updateStatus (s : TMState) (forwardId : String) (status : TunnelStatus)
    (error : Option String) (reconnectAt : Option Nat) : TMState × TMEvent :=
  let prev := s.statuses forwardId
  let next : TunnelStatusChange :=
    { hostId := ((prev.map (·.hostId)).getD ""), forwardId := forwardId
      status := status, error := error, reconnectAt := reconnectAt }
  ({ s with statuses := upd s.statuses forwardId (some next) }, .statusChanged next)

def RECONNECT_DELAY_MS : Nat := 5000

inductive StartStage where
  | localPortPrecheck
  | targetConnect
  | localListen
deriving DecidableEq, Repr

/-- A local bind failure as surfaced by the socket layer: the errno
code string (EADDRINUSE, EACCES, ...) and the raw message. -/
structure BindFailure where
  code : Option String
  message : String
deriving DecidableEq, Repr

/-- `TunnelManager.buildStartError`: classify a start-stage failure.
Bind-stage failures name the attempted local host and port and are
split into address-in-use, permission-denied and generic; connect-stage
failures name the SSH target. -/
def buildStartError (stage : StartStage) (config : ForwardRuntimeConfig)
    (rawMessage : String) (code : Option String) : String :=
  if stage = .localPortPrecheck ∨ stage = .localListen then
    if code = some "EADDRINUSE" then
      "Local port " ++ toString config.localPort ++ " on " ++ config.localHost
        ++ " is already in use."
    else if code = some "EACCES" then
      "Permission denied when binding " ++ config.localHost ++ ":"
        ++ toString config.localPort ++ "."
    else
      "Failed to bind local listener on " ++ config.localHost ++ ":"
        ++ toString config.localPort ++ ": " ++ rawMessage
  else
    "Unable to connect SSH " ++ config.sshHost ++ ":" ++ toString config.sshPort
      ++ ". " ++ rawMessage

/-- `scheduleReconnect`: arm the (single) reconnect timer for the rule
with the given fire deadline, provided a configuration is stored. -/
def scheduleReconnect (s : TMState) (id : String) (reconnectAt : Nat) : TMState :=
  match s.configs id with
  | none => s
  | some _ => { s with reconnectTimers := upd s.reconnectTimers id (some reconnectAt) }

/-- `markErrorAndScheduleReconnect`: broadcast status `error` carrying
the message and `reconnectAt = now + 5000`, then arm the timer for that
deadline. -/
def markErrorAndScheduleReconnect (s : TMState) (id : String) (error : String)
    (now : Nat) : TMState × TMEvent :=
  let reconnectAt := now + RECONNECT_DELAY_MS
  let r := updateStatus s id .error (some error) (some reconnectAt)
  (scheduleReconnect r.1 id reconnectAt, r.2)

/-- Outcomes of the three stages of one start attempt (`none` means the
stage succeeds), the handle of the session a successful connect opens,
and the wall-clock time at which a failure is handled. -/
structure TunnelStartWorld where
  precheck : Option BindFailure
  connect : Option String
  listen : Option BindFailure
  connId : Nat
  now : Nat

/-- `TunnelManager.start`: store the newly supplied configuration and
cancel any pending reconnect timer; return immediately when the rule is
already running.  Otherwise broadcast `starting` and run the bind
pre-check, the SSH connect and the real local listen; the first failure
is classified via `buildStartError`, the session opened by a successful
connect is closed again if the listen then fails (the catch block's
client teardown), the rule is marked `error` with a reconnect scheduled
5000 ms ahead, and the same classified message is thrown to the caller.
On success the rule holds the session and broadcasts `running`. -/
def tmStart (s : TMState) (config : ForwardRuntimeConfig) (w : TunnelStartWorld) :
    TMState × List TMEvent × Except String Unit :=
  let s0 := { s with configs := upd s.configs config.id (some config)
                     reconnectTimers := upd s.reconnectTimers config.id none }
  if (s0.running config.id).isSome then (s0, [], .ok ())
  else
    let r1 := updateStatus s0 config.id .starting none none
    match w.precheck with
    | some failure =>
      let msg := buildStartError .localPortPrecheck config failure.message failure.code
      let r2 := markErrorAndScheduleReconnect r1.1 config.id msg w.now
      (r2.1, [r1.2, r2.2], .error msg)
    | none =>
      match w.connect with
      | some raw =>
        let msg := buildStartError .targetConnect config raw none
        let r2 := markErrorAndScheduleReconnect r1.1 config.id msg w.now
        (r2.1, [r1.2, r2.2], .error msg)
      | none =>
        match w.listen with
        | some failure =>
          let msg := buildStartError .localListen config failure.message failure.code
          let r2 := markErrorAndScheduleReconnect r1.1 config.id msg w.now
          (r2.1, [r1.2, .connOpened config.id, .connClosed config.id, r2.2], .error msg)
        | none =>
          let s2 := { r1.1 with running := upd r1.1.running config.id (some w.connId) }
          let r3 := updateStatus s2 config.id .running none none
          (r3.1, [r1.2, .connOpened config.id, r3.2], .ok ())

/-- `TunnelManager.stop`: cancel any pending reconnect timer; when no
pair is active just broadcast `stopped`, otherwise broadcast
`stopping`, close the listener/session pair, and broadcast `stopped`.
No reconnect is scheduled. -/
def tmStop (s : TMState) (id : String) : TMState × List TMEvent :=
  let s0 := { s with reconnectTimers := upd s.reconnectTimers id none }
  if (s0.running id).isNone then
    let r := updateStatus s0 id .stopped none none
    (r.1, [r.2])
  else
    let r1 := updateStatus s0 id .stopping none none
    let s1 := { r1.1 with running := upd r1.1.running id none }
    let r2 := updateStatus s1 id .stopped none none
    (r2.1, [r1.2, .connClosed id, r2.2])

/-- The runtime handlers bound to an active pair (listener error, SSH
error, SSH close): ignored when the rule no longer holds a pair,
otherwise the pair is closed and the rule marked `error` with a
reconnect scheduled. -/
def tmRuntimeFailure (s : TMState) (id : String) (msg : String) (now : Nat) :
    TMState × List TMEvent :=
  if (s.running id).isNone then (s, [])
  else
    let s1 := { s with running := upd s.running id none }
    let r := markErrorAndScheduleReconnect s1 id msg now
    (r.1, [.connClosed id, r.2])

/-- A pending reconnect timer firing: disarm it, skip when the rule was
meanwhile stopped or is stopping, and otherwise re-run `start` with the
stored configuration.  (The source closure captures the configuration
at scheduling time; any intervening `start` or `clearTunnel` clears the
timer, so a firing timer always sees the stored configuration.) -/
def tmTimerFire (s : TMState) (id : String) (w : TunnelStartWorld) :
    TMState × List TMEvent :=
  match s.reconnectTimers id with
  | none => (s, [])
  | some _ =>
    let s1 := { s with reconnectTimers := upd s.reconnectTimers id none }
    let current := s1.statuses id
    if current.map (·.status) = some TunnelStatus.stopped
        ∨ current.map (·.status) = some TunnelStatus.stopping then
      (s1, [])
    else
      match s1.configs id with
      | none => (s1, [])
      | some config =>
        let r := tmStart s1 config w
        (r.1, r.2.1)

/-- Things that can happen to the manager: the two API calls, a timer
firing, and a runtime failure callback of an active pair. -/
inductive TMStep where
  | startCall (config : ForwardRuntimeConfig) (w : TunnelStartWorld)
  | stopCall (id : String)
  | timerFire (id : String) (w : TunnelStartWorld)
  | runtimeFailure (id : String) (msg : String) (now : Nat)

def stepSem (s : TMState) : TMStep → TMState × List TMEvent
  | .startCall config w => ((tmStart s config w).1, (tmStart s config w).2.1)
  | .stopCall id => tmStop s id
  | .timerFire id w => tmTimerFire s id w
  | .runtimeFailure id msg now => tmRuntimeFailure s id msg now

def runSteps (s : TMState) : List TMStep → TMState × List TMEvent
  | [] => (s, [])
  | step :: rest =>
    ((runSteps (stepSem s step).1 rest).1,
     (stepSem s step).2 ++ (runSteps (stepSem s step).1 rest).2)

/-- The two API entry points addressing a given rule id. -/
def isApiCallFor (id : String) : TMStep → Bool
  | .startCall config _ => config.id == id
  | .stopCall i => i == id
  | .timerFire _ _ => false
  | .runtimeFailure _ _ _ => false

def openedCount (id : String) (evs : List TMEvent) : Nat :=
  evs.countP fun e => e == TMEvent.connOpened id

def closedCount (id : String) (evs : List TMEvent) : Nat :=
  evs.countP fun e => e == TMEvent.connClosed id

/-- The configuration table is keyed consistently: a stored
configuration's own id is its key.  `start` is the only writer and
preserves this. -/
def ConfigsOk (s : TMState) : Prop :=
  ∀ k c, s.configs k = some c → c.id = k

theorem upd_self {α : Type} (f : String → Option α) (k : String) (v : Option α) :
    upd f k v k = v := by
  simp [upd]

theorem upd_other {α : Type} (f : String → Option α) (k : String) (v : Option α)
    (x : String) (h : x ≠ k) : upd f k v x = f x := by
  simp [upd, h]

theorem tmStart_other (s : TMState) (config : ForwardRuntimeConfig) (w : TunnelStartWorld)
    (x : String) (hx : x ≠ config.id) :
    (tmStart s config w).1.running x = s.running x ∧
    (tmStart s config w).1.statuses x = s.statuses x ∧
    (tmStart s config w).1.configs x = s.configs x ∧
    (tmStart s config w).1.reconnectTimers x = s.reconnectTimers x ∧
    ∀ e ∈ (tmStart s config w).2.1, eventId e = config.id := by
  unfold tmStart
  by_cases hr : (s.running config.id).isSome
  · simp [hr, upd, hx]
  · cases hpc : w.precheck with
    | some failure =>
      simp [hr, hpc, updateStatus, markErrorAndScheduleReconnect, scheduleReconnect,
        upd, hx, eventId]
    | none =>
      cases hcn : w.connect with
      | some raw =>
        simp [hr, hpc, hcn, updateStatus, markErrorAndScheduleReconnect,
          scheduleReconnect, upd, hx, eventId]
      | none =>
        cases hls : w.listen with
        | some failure =>
          simp [hr, hpc, hcn, hls, updateStatus, markErrorAndScheduleReconnect,
            scheduleReconnect, upd, hx, eventId]
        | none =>
          simp [hr, hpc, hcn, hls, updateStatus, upd, hx, eventId]

theorem tmStop_other (s : TMState) (id x : String) (hx : x ≠ id) :
    (tmStop s id).1.running x = s.running x ∧
    (tmStop s id).1.statuses x = s.statuses x ∧
    (tmStop s id).1.configs x = s.configs x ∧
    (tmStop s id).1.reconnectTimers x = s.reconnectTimers x ∧
    ∀ e ∈ (tmStop s id).2, eventId e = id := by
  unfold tmStop
  by_cases hr : (s.running id).isNone
  · simp [hr, updateStatus, upd, hx, eventId]
  · simp [hr, updateStatus, upd, hx, eventId]

theorem tmRuntimeFailure_other (s : TMState) (id : String) (msg : String) (now : Nat)
    (x : String) (hx : x ≠ id) :
    (tmRuntimeFailure s id msg now).1.running x = s.running x ∧
    (tmRuntimeFailure s id msg now).1.statuses x = s.statuses x ∧
    (tmRuntimeFailure s id msg now).1.configs x = s.configs x ∧
    (tmRuntimeFailure s id msg now).1.reconnectTimers x = s.reconnectTimers x ∧
    ∀ e ∈ (tmRuntimeFailure s id msg now).2, eventId e = id := by
  unfold tmRuntimeFailure
  by_cases hr : (s.running id).isNone
  · simp [hr]
  · simp [hr, markErrorAndScheduleReconnect, scheduleReconnect, updateStatus,
      upd, hx, eventId]
    split <;> simp [upd, hx]

theorem tmStart_configs (s : TMState) (config : ForwardRuntimeConfig)
    (w : TunnelStartWorld) :
    (tmStart s config w).1.configs = upd s.configs config.id (some config) := by
  unfold tmStart
  by_cases hr : (s.running config.id).isSome
  · simp [hr]
  · cases hpc : w.precheck with
    | some failure =>
      simp [hr, hpc, updateStatus, markErrorAndScheduleReconnect, scheduleReconnect]
      split <;> rfl
    | none =>
      cases hcn : w.connect with
      | some raw =>
        simp [hr, hpc, hcn, updateStatus, markErrorAndScheduleReconnect,
          scheduleReconnect]
        split <;> rfl
      | none =>
        cases hls : w.listen with
        | some failure =>
          simp [hr, hpc, hcn, hls, updateStatus, markErrorAndScheduleReconnect,
            scheduleReconnect]
          split <;> rfl
        | none =>
          simp [hr, hpc, hcn, hls, updateStatus]

theorem tmStop_configs (s : TMState) (id : String) :
    (tmStop s id).1.configs = s.configs := by
  unfold tmStop
  by_cases hr : (s.running id).isNone <;> simp [hr, updateStatus]

theorem tmRuntimeFailure_configs (s : TMState) (id : String) (msg : String) (now : Nat) :
    (tmRuntimeFailure s id msg now).1.configs = s.configs := by
  unfold tmRuntimeFailure
  by_cases hr : (s.running id).isNone
  · simp [hr]
  · simp [hr, markErrorAndScheduleReconnect, scheduleReconnect, updateStatus]
    split <;> rfl

theorem tmStart_configsOk (s : TMState) (config : ForwardRuntimeConfig)
    (w : TunnelStartWorld) (h : ConfigsOk s) : ConfigsOk (tmStart s config w).1 := by
  intro k c hk
  rw [tmStart_configs] at hk
  by_cases hkc : k = config.id
  · subst hkc
    rw [upd_self] at hk
    cases hk
    rfl
  · rw [upd_other _ _ _ _ hkc] at hk
    exact h k c hk

theorem tmTimerFire_configsOk (s : TMState) (id : String) (w : TunnelStartWorld)
    (h : ConfigsOk s) : ConfigsOk (tmTimerFire s id w).1 := by
  unfold tmTimerFire
  have h1 : ConfigsOk { s with reconnectTimers := upd s.reconnectTimers id none } := h
  cases ht : s.reconnectTimers id with
  | none => exact h
  | some t =>
    dsimp only
    split
    · exact h1
    · split
      · exact h1
      · exact tmStart_configsOk _ _ w h1

theorem stepSem_configsOk (s : TMState) (step : TMStep) (h : ConfigsOk s) :
    ConfigsOk (stepSem s step).1 := by
  cases step with
  | startCall config w => exact tmStart_configsOk s config w h
  | stopCall id =>
    intro k c hk
    rw [show (stepSem s (.stopCall id)).1.configs = s.configs from tmStop_configs s id] at hk
    exact h k c hk
  | timerFire id w => exact tmTimerFire_configsOk s id w h
  | runtimeFailure id msg now =>
    intro k c hk
    rw [show (stepSem s (.runtimeFailure id msg now)).1.configs = s.configs from
      tmRuntimeFailure_configs s id msg now] at hk
    exact h k c hk

theorem tmTimerFire_other (s : TMState) (id : String) (w : TunnelStartWorld)
    (x : String) (hok : ConfigsOk s) (hx : x ≠ id) :
    (tmTimerFire s id w).1.running x = s.running x ∧
    (tmTimerFire s id w).1.statuses x = s.statuses x ∧
    (tmTimerFire s id w).1.configs x = s.configs x ∧
    (tmTimerFire s id w).1.reconnectTimers x = s.reconnectTimers x ∧
    ∀ e ∈ (tmTimerFire s id w).2, eventId e = id := by
  unfold tmTimerFire
  cases ht : s.reconnectTimers id with
  | none => simp
  | some t =>
    dsimp only
    split
    · simp [upd, hx]
    · split
      · simp [upd, hx]
      · next config heq =>
        have hcid : config.id = id :=
          hok id config (by simpa using heq)
        obtain ⟨h1, h2, h3, h4, h5⟩ := tmStart_other
          { s with reconnectTimers := upd s.reconnectTimers id none } config w x
          (by rw [hcid]; exact hx)
        refine ⟨?_, ?_, ?_, ?_, ?_⟩
        · simpa using h1
        · simpa using h2
        · simpa using h3
        · rw [show (tmStart { s with reconnectTimers := upd s.reconnectTimers id none }
            config w).1.reconnectTimers x = upd s.reconnectTimers id none x from h4]
          simp [upd, hx]
        · intro e he
          rw [← hcid]
          exact h5 e he

/-- A quiescent rule (no active pair, no pending timer) stays quiescent
and emits nothing under any step that is not a start/stop API call for
that rule. -/
theorem quiet_step (s : TMState) (id : String) (step : TMStep) (hok : ConfigsOk s)
    (hrun : s.running id = none) (htimer : s.reconnectTimers id = none)
    (hapi : isApiCallFor id step = false) :
    (stepSem s step).1.running id = none ∧
    (stepSem s step).1.reconnectTimers id = none ∧
    ∀ e ∈ (stepSem s step).2, eventId e ≠ id := by
  cases step with
  | startCall config w =>
    have hx : id ≠ config.id := by
      simp [isApiCallFor] at hapi
      exact fun h => hapi h.symm
    obtain ⟨h1, _, _, h4, h5⟩ := tmStart_other s config w id hx
    refine ⟨h1.trans hrun, h4.trans htimer, ?_⟩
    intro e he heq
    exact hx (((h5 e he).symm.trans heq).symm)
  | stopCall i =>
    have hx : id ≠ i := by
      simp [isApiCallFor] at hapi
      exact fun h => hapi h.symm
    obtain ⟨h1, _, _, h4, h5⟩ := tmStop_other s i id hx
    refine ⟨h1.trans hrun, h4.trans htimer, ?_⟩
    intro e he heq
    exact hx (((h5 e he).symm.trans heq).symm)
  | timerFire i w =>
    by_cases hi : i = id
    · subst hi
      simp only [stepSem]
      unfold tmTimerFire
      rw [htimer]
      exact ⟨hrun, htimer, by simp⟩
    · obtain ⟨h1, _, _, h4, h5⟩ := tmTimerFire_other s i w id hok
        (fun h => hi h.symm)
      refine ⟨h1.trans hrun, h4.trans htimer, ?_⟩
      intro e he heq
      exact hi (((h5 e he).symm.trans heq))
  | runtimeFailure i msg now =>
    by_cases hi : i = id
    · subst hi
      simp only [stepSem]
      unfold tmRuntimeFailure
      rw [hrun]
      exact ⟨hrun, htimer, by simp⟩
    · obtain ⟨h1, _, _, h4, h5⟩ := tmRuntimeFailure_other s i msg now id
        (fun h => hi h.symm)
      refine ⟨h1.trans hrun, h4.trans htimer, ?_⟩
      intro e he heq
      exact hi (((h5 e he).symm.trans heq))

/-- Quiescence propagates along any step sequence free of start/stop
API calls for the rule: no emitted event belongs to it. -/
theorem quiet_run (s : TMState) (id : String) (steps : List TMStep) (hok : ConfigsOk s)
    (hrun : s.running id = none) (htimer : s.reconnectTimers id = none)
    (hsteps : ∀ st ∈ steps, isApiCallFor id st = false) :
    ∀ e ∈ (runSteps s steps).2, eventId e ≠ id := by
  induction steps generalizing s with
  | nil => simp [runSteps]
  | cons step rest ih =>
    obtain ⟨h1, h2, h3⟩ := quiet_step s id step hok hrun htimer
      (hsteps step (by simp))
    intro e he
    rw [runSteps] at he
    simp only [List.mem_append] at he
    rcases he with he | he
    · exact h3 e he
    · exact ih (stepSem s step).1 (stepSem_configsOk s step hok) h1 h2
        (fun st hst => hsteps st (by simp [hst])) e he

theorem tmStop_self (s : TMState) (id : String) :
    (tmStop s id).1.reconnectTimers id = none ∧ (tmStop s id).1.running id = none := by
  unfold tmStop
  by_cases hr : (s.running id).isNone
  · simp [hr, updateStatus, upd]
    simpa using hr
  · simp [hr, updateStatus, upd]

theorem tmStop_events_active (s : TMState) (id : String) (h : (s.running id).isSome) :
    (tmStop s id).2 =
      [.statusChanged
         { hostId := ((s.statuses id).map (·.hostId)).getD "",
           forwardId := id, status := .stopping, error := none, reconnectAt := none },
       .connClosed id,
       .statusChanged
         { hostId := ((s.statuses id).map (·.hostId)).getD "",
           forwardId := id, status := .stopped, error := none, reconnectAt := none }] := by
  unfold tmStop
  have hr : (s.running id).isNone = false := by
    simp [Option.isNone_iff_eq_none]
    exact Option.isSome_iff_exists.mp h |>.elim fun a ha => by simp [ha]
  simp [hr, updateStatus, upd]

theorem tmStop_events_idle (s : TMState) (id : String) (h : (s.running id).isNone) :
    (tmStop s id).2 =
      [.statusChanged
         { hostId := ((s.statuses id).map (·.hostId)).getD "",
           forwardId := id, status := .stopped, error := none, reconnectAt := none }] := by
  unfold tmStop
  simp [h, updateStatus, upd]

/-- C5 (amended): `stop` cancels any pending reconnect timer and leaves
the rule with no active pair, broadcasts `stopping`, closes the pair
and broadcasts `stopped` when a pair was active — and broadcasts only
`stopped` when none was — schedules no reconnect, and afterwards no
step other than a start/stop API call for that rule (timer firings and
runtime failure callbacks included) ever emits an event for it. -/
theorem tunnel_stop_quiescence (s : TMState) (id : String) (hok : ConfigsOk s) :
    (tmStop s id).1.reconnectTimers id = none
  ∧ (tmStop s id).1.running id = none
  ∧ ((s.running id).isSome →
      (tmStop s id).2 =
        [.statusChanged
           { hostId := ((s.statuses id).map (·.hostId)).getD "",
             forwardId := id, status := .stopping, error := none, reconnectAt := none },
         .connClosed id,
         .statusChanged
           { hostId := ((s.statuses id).map (·.hostId)).getD "",
             forwardId := id, status := .stopped, error := none, reconnectAt := none }])
  ∧ ((s.running id).isNone →
      (tmStop s id).2 =
        [.statusChanged
           { hostId := ((s.statuses id).map (·.hostId)).getD "",
             forwardId := id, status := .stopped, error := none, reconnectAt := none }])
  ∧ (∀ steps : List TMStep, (∀ st ∈ steps, isApiCallFor id st = false) →
      ∀ e ∈ (runSteps (tmStop s id).1 steps).2, eventId e ≠ id) := by
  obtain ⟨ht, hr⟩ := tmStop_self s id
  refine ⟨ht, hr, tmStop_events_active s id, tmStop_events_idle s id, ?_⟩
  intro steps hsteps
  have hok' : ConfigsOk (tmStop s id).1 := by
    intro k c hk
    rw [tmStop_configs] at hk
    exact hok k c hk
  exact quiet_run (tmStop s id).1 id steps hok' hr ht hsteps

def demoRuntimeCfg : ForwardRuntimeConfig :=
  { id := "r1", sshHost := "203.0.113.7", sshPort := 22, username := "deploy"
    authType := .password, password := some "pw", privateKey := none, passphrase := none
    jumpHost := none, localHost := "127.0.0.1", localPort := 5432
    remoteHost := "127.0.0.1", remotePort := 5432 }

/-- A rule in `error` state with a pending reconnect timer but no
active listener/session pair. -/
def sReconnectPending : TMState :=
  { running := fun _ => none
    statuses := fun k => if k = "r1"
      then some { hostId := "h1", forwardId := "r1", status := .error,
                  error := some "boom", reconnectAt := some 7000 }
      else none
    configs := fun k => if k = "r1" then some demoRuntimeCfg else none
    reconnectTimers := fun k => if k = "r1" then some 7000 else none }

/-- C5: counterexample to the claim as stated.  Stopping a rule that
has no active pair (here: one waiting in `error` with a pending
reconnect timer) emits only a `stopped` status event — there is no
`stopping` transition, contrary to the claimed unconditional
stopping-then-stopped sequence. -/
theorem tmStop_without_stopping_transition :
    (tmStop sReconnectPending "r1").2 =
      [.statusChanged
         { hostId := "h1", forwardId := "r1", status := .stopped,
           error := none, reconnectAt := none }] ∧
    ∀ e ∈ (tmStop sReconnectPending "r1").2,
      (match e with
       | TMEvent.statusChanged c => c.status
       | _ => TunnelStatus.stopped) ≠ TunnelStatus.stopping := by
  constructor
  · rfl
  · decide

def sRunningPair : TMState :=
  { running := fun k => if k = "r1" then some 11 else none
    statuses := fun k => if k = "r1"
      then some { hostId := "h1", forwardId := "r1", status := .running,
                  error := none, reconnectAt := none }
      else none
    configs := fun k => if k = "r1" then some demoRuntimeCfg else none
    reconnectTimers := fun _ => none }

theorem sRunningPair_configsOk : ConfigsOk sRunningPair := by
  intro k c h
  by_cases hk : k = "r1"
  · subst hk
    simp [sRunningPair] at h
    rw [← h]
    rfl
  · simp [sRunningPair, hk] at h

def wDummy : TunnelStartWorld :=
  { precheck := none, connect := none, listen := none, connId := 0, now := 0 }

theorem tunnel_stop_quiescence_witness :
    (tmStop sRunningPair "r1").1.reconnectTimers "r1" = none ∧
    (tmStop sRunningPair "r1").2 =
      [.statusChanged
         { hostId := "h1", forwardId := "r1", status := .stopping,
           error := none, reconnectAt := none },
       .connClosed "r1",
       .statusChanged
         { hostId := "h1", forwardId := "r1", status := .stopped,
           error := none, reconnectAt := none }] ∧
    ∀ e ∈ (runSteps (tmStop sRunningPair "r1").1
        [TMStep.timerFire "r1" wDummy, TMStep.runtimeFailure "r1" "x" 0,
         TMStep.startCall { demoRuntimeCfg with id := "r2" } wDummy,
         TMStep.stopCall "r2"]).2,
      eventId e ≠ "r1" := by
  have h := tunnel_stop_quiescence sRunningPair "r1" sRunningPair_configsOk
  exact ⟨h.1, h.2.2.1 (by decide), h.2.2.2.2 _ (by decide)⟩

def runningBit (s : TMState) (id : String) : Nat :=
  if (s.running id).isSome then 1 else 0

theorem eventId_counts_zero (id : String) (evs : List TMEvent)
    (h : ∀ e ∈ evs, eventId e ≠ id) :
    openedCount id evs = 0 ∧ closedCount id evs = 0 := by
  constructor
  · rw [openedCount, List.countP_eq_zero]
    intro e he
    simp only [beq_iff_eq]
    intro heq
    exact h e he (by rw [heq]; rfl)
  · rw [closedCount, List.countP_eq_zero]
    intro e he
    simp only [beq_iff_eq]
    intro heq
    exact h e he (by rw [heq]; rfl)

theorem tmStart_alreadyRunning (s : TMState) (config : ForwardRuntimeConfig)
    (w : TunnelStartWorld) (h : (s.running config.id).isSome) :
    tmStart s config w =
      ({ s with configs := upd s.configs config.id (some config)
                reconnectTimers := upd s.reconnectTimers config.id none }, [], .ok ()) := by
  unfold tmStart
  simp [h]

theorem tmStart_success (s : TMState) (config : ForwardRuntimeConfig)
    (w : TunnelStartWorld) (hr : s.running config.id = none)
    (hok : (tmStart s config w).2.2 = .ok ()) :
    (tmStart s config w).1.running config.id = some w.connId ∧
    openedCount config.id (tmStart s config w).2.1 = 1 ∧
    closedCount config.id (tmStart s config w).2.1 = 0 := by
  have hr' : (s.running config.id).isSome = false := by simp [hr]
  unfold tmStart at hok ⊢
  cases hpc : w.precheck with
  | some f =>
    rw [hpc] at hok
    simp [hr'] at hok
  | none =>
    cases hcn : w.connect with
    | some raw =>
      rw [hpc, hcn] at hok
      simp [hr'] at hok
    | none =>
      cases hls : w.listen with
      | some f =>
        rw [hpc, hcn, hls] at hok
        simp [hr'] at hok
      | none =>
        simp [hr', hpc, hcn, hls, updateStatus, upd, openedCount, closedCount]

theorem tmStart_balance (s : TMState) (config : ForwardRuntimeConfig)
    (w : TunnelStartWorld) (id : String) :
    openedCount id (tmStart s config w).2.1 + runningBit s id
      = closedCount id (tmStart s config w).2.1 + runningBit (tmStart s config w).1 id := by
  by_cases hid : id = config.id
  · rcases hid with rfl
    by_cases hr : (s.running config.id).isSome
    · rw [tmStart_alreadyRunning s config w hr]
      simp [openedCount, closedCount, runningBit, hr]
    · have hr' : (s.running config.id).isSome = false := by simpa using hr
      unfold tmStart
      cases hpc : w.precheck with
      | some f =>
        simp [hr', hpc, updateStatus, markErrorAndScheduleReconnect, scheduleReconnect,
          openedCount, closedCount, runningBit, upd]
      | none =>
        cases hcn : w.connect with
        | some raw =>
          simp [hr', hpc, hcn, updateStatus, markErrorAndScheduleReconnect,
            scheduleReconnect, openedCount, closedCount, runningBit, upd]
        | none =>
          cases hls : w.listen with
          | some f =>
            simp [hr', hpc, hcn, hls, updateStatus, markErrorAndScheduleReconnect,
              scheduleReconnect, openedCount, closedCount, runningBit, upd]
          | none =>
            simp [hr', hpc, hcn, hls, updateStatus, openedCount, closedCount,
              runningBit, upd]
  · obtain ⟨h1, _, _, _, h5⟩ := tmStart_other s config w id hid
    obtain ⟨ho, hc⟩ := eventId_counts_zero id (tmStart s config w).2.1
      (fun e he heq => hid (((h5 e he).symm.trans heq).symm))
    rw [ho, hc, runningBit, runningBit, h1]

theorem stepSem_balance (s : TMState) (step : TMStep) (id : String) :
    openedCount id (stepSem s step).2 + runningBit s id
      = closedCount id (stepSem s step).2 + runningBit (stepSem s step).1 id := by
  cases step with
  | startCall config w =>
    simpa [stepSem] using tmStart_balance s config w id
  | stopCall i =>
    by_cases hid : id = i
    · rcases hid with rfl
      by_cases hr : (s.running id).isNone
      · have he := tmStop_events_idle s id hr
        have hs := (tmStop_self s id).2
        simp [stepSem, he, openedCount, closedCount, runningBit, hs,
          Option.isNone_iff_eq_none.mp hr]
      · have hsome : (s.running id).isSome := by
          cases hv : s.running id with
          | none => rw [hv] at hr; simp at hr
          | some v => simp
        have he := tmStop_events_active s id hsome
        have hs := (tmStop_self s id).2
        simp [stepSem, he, openedCount, closedCount, runningBit, hs, hsome]
    · obtain ⟨h1, _, _, _, h5⟩ := tmStop_other s i id hid
      obtain ⟨ho, hc⟩ := eventId_counts_zero id (tmStop s i).2
        (fun e he heq => hid (((h5 e he).symm.trans heq).symm))
      simp only [stepSem]
      rw [ho, hc, runningBit, runningBit, h1]
  | runtimeFailure i msg now =>
    by_cases hid : id = i
    · rcases hid with rfl
      by_cases hr : (s.running id).isNone
      · simp [stepSem, tmRuntimeFailure, hr, runningBit, openedCount, closedCount,
          Option.isNone_iff_eq_none.mp hr]
      · have hr' : (s.running id).isNone = false := by
          cases hb : (s.running id).isNone
          · rfl
          · exact absurd hb hr
        have hsome : (s.running id).isSome := by
          cases hv : s.running id with
          | none => rw [hv] at hr'; simp at hr'
          | some v => simp [hv]
        simp [stepSem, tmRuntimeFailure, hr', markErrorAndScheduleReconnect,
          scheduleReconnect, updateStatus, openedCount, closedCount, runningBit,
          upd, hsome]
        split <;> simp [upd]
    · obtain ⟨h1, _, _, _, h5⟩ := tmRuntimeFailure_other s i msg now id hid
      obtain ⟨ho, hc⟩ := eventId_counts_zero id (tmRuntimeFailure s i msg now).2
        (fun e he heq => hid (((h5 e he).symm.trans heq).symm))
      simp only [stepSem]
      rw [ho, hc, runningBit, runningBit, h1]
  | timerFire i w =>
    simp only [stepSem]
    unfold tmTimerFire
    cases ht : s.reconnectTimers i with
    | none => simp [openedCount, closedCount]
    | some t =>
      dsimp only
      split
      · simp [runningBit, openedCount, closedCount]
      · split
        · simp [runningBit, openedCount, closedCount]
        · exact tmStart_balance _ _ w id

theorem runSteps_balance (s : TMState) (steps : List TMStep) (id : String) :
    openedCount id (runSteps s steps).2 + runningBit s id
      = closedCount id (runSteps s steps).2 + runningBit (runSteps s steps).1 id := by
  induction steps generalizing s with
  | nil => simp [runSteps, openedCount, closedCount]
  | cons step rest ih =>
    have h1 := stepSem_balance s step id
    have h2 := ih (stepSem s step).1
    rw [runSteps]
    simp only [openedCount, closedCount, List.countP_append] at h1 h2 ⊢
    omega

/-- C3: at most one listener/session pair per rule id.  A start call on
an already-running rule only stores the newly supplied configuration
(and clears any pending timer) and returns without events — in
particular without opening a second connection; two consecutive start
calls without an intervening stop open exactly one connection; and
along every step sequence from the initial state the number of
connections opened for a rule never exceeds the number closed plus
one. -/
theorem tunnel_single_connection :
    (∀ (s : TMState) (config : ForwardRuntimeConfig) (w : TunnelStartWorld),
      (s.running config.id).isSome →
      tmStart s config w =
        ({ s with configs := upd s.configs config.id (some config)
                  reconnectTimers := upd s.reconnectTimers config.id none }, [], .ok ()))
  ∧ (∀ (s : TMState) (cfg cfg' : ForwardRuntimeConfig) (w w' : TunnelStartWorld),
      s.running cfg.id = none → cfg'.id = cfg.id →
      (tmStart s cfg w).2.2 = .ok () →
      (tmStart (tmStart s cfg w).1 cfg' w').2.1 = [] ∧
      openedCount cfg.id
        ((tmStart s cfg w).2.1 ++ (tmStart (tmStart s cfg w).1 cfg' w').2.1) = 1 ∧
      (tmStart (tmStart s cfg w).1 cfg' w').1.configs cfg.id = some cfg')
  ∧ (∀ (steps : List TMStep) (id : String),
      openedCount id (runSteps TMState.initial steps).2
        ≤ closedCount id (runSteps TMState.initial steps).2 + 1) := by
  refine ⟨fun s config w h => tmStart_alreadyRunning s config w h, ?_, ?_⟩
  · intro s cfg cfg' w w' hr hid hok
    obtain ⟨hrun, hopen, _⟩ := tmStart_success s cfg w hr hok
    have hsome : ((tmStart s cfg w).1.running cfg'.id).isSome := by
      rw [hid, hrun]
      rfl
    have h2 := tmStart_alreadyRunning (tmStart s cfg w).1 cfg' w' hsome
    refine ⟨by rw [h2], ?_, ?_⟩
    · rw [h2]
      simp only [openedCount, List.countP_append] at hopen ⊢
      simp [hopen]
    · rw [h2]
      show upd (tmStart s cfg w).1.configs cfg'.id (some cfg') cfg.id = some cfg'
      rw [← hid]
      exact upd_self _ _ _
  · intro steps id
    have h := runSteps_balance TMState.initial steps id
    have hb : runningBit TMState.initial id = 0 := rfl
    rw [hb] at h
    have hle : runningBit (runSteps TMState.initial steps).1 id ≤ 1 := by
      unfold runningBit
      split <;> omega
    omega

theorem tunnel_single_connection_witness :
    tmStart sRunningPair demoRuntimeCfg wDummy =
      ({ sRunningPair with
          configs := upd sRunningPair.configs "r1" (some demoRuntimeCfg)
          reconnectTimers := upd sRunningPair.reconnectTimers "r1" none }, [], .ok ()) ∧
    (tmStart (tmStart TMState.initial demoRuntimeCfg wDummy).1 demoRuntimeCfg wDummy).2.1
      = [] ∧
    openedCount "r1" ((tmStart TMState.initial demoRuntimeCfg wDummy).2.1
      ++ (tmStart (tmStart TMState.initial demoRuntimeCfg wDummy).1
            demoRuntimeCfg wDummy).2.1) = 1 := by
  have h := tunnel_single_connection
  have h2 := h.2.1 TMState.initial demoRuntimeCfg demoRuntimeCfg wDummy wDummy rfl rfl rfl
  exact ⟨h.1 sRunningPair demoRuntimeCfg wDummy rfl, h2.1, h2.2.1⟩

theorem str_empty_append (s : String) : "" ++ s = s := rfl

theorem tmStart_precheck_failure (s : TMState) (config : ForwardRuntimeConfig)
    (w : TunnelStartWorld) (hr : s.running config.id = none)
    (f : BindFailure) (hpc : w.precheck = some f) :
    (tmStart s config w).2.2 =
      .error (buildStartError .localPortPrecheck config f.message f.code) ∧
    (tmStart s config w).1.statuses config.id = some
      { hostId := ((s.statuses config.id).map (·.hostId)).getD ""
        forwardId := config.id, status := .error
        error := some (buildStartError .localPortPrecheck config f.message f.code)
        reconnectAt := some (w.now + RECONNECT_DELAY_MS) } ∧
    (tmStart s config w).1.reconnectTimers config.id = some (w.now + RECONNECT_DELAY_MS) := by
  have hr' : (s.running config.id).isSome = false := by simp [hr]
  unfold tmStart
  simp [hr', hpc, updateStatus, markErrorAndScheduleReconnect, scheduleReconnect, upd]

theorem tmStart_listen_failure (s : TMState) (config : ForwardRuntimeConfig)
    (w : TunnelStartWorld) (hr : s.running config.id = none)
    (f : BindFailure) (hpc : w.precheck = none) (hcn : w.connect = none)
    (hls : w.listen = some f) :
    (tmStart s config w).2.2 =
      .error (buildStartError .localListen config f.message f.code) ∧
    (tmStart s config w).1.statuses config.id = some
      { hostId := ((s.statuses config.id).map (·.hostId)).getD ""
        forwardId := config.id, status := .error
        error := some (buildStartError .localListen config f.message f.code)
        reconnectAt := some (w.now + RECONNECT_DELAY_MS) } ∧
    (tmStart s config w).1.reconnectTimers config.id = some (w.now + RECONNECT_DELAY_MS) := by
  have hr' : (s.running config.id).isSome = false := by simp [hr]
  unfold tmStart
  simp [hr', hpc, hcn, hls, updateStatus, markErrorAndScheduleReconnect,
    scheduleReconnect, upd]

/-- C4: a tunnel start whose local bind pre-check or real local listen
fails is classified — EADDRINUSE yields the exact "... is already in
use." message, EACCES the "Permission denied when binding ..." message,
anything else the generic bind-failure message, each naming the
attempted local host and port — the rule's status becomes `error` with
`reconnectAt` equal to the failure time plus 5000 ms, a reconnect timer
is armed for that deadline, and the very same classified message is
thrown synchronously to the caller of start. -/
theorem tunnel_bind_failure_classification (s : TMState) (config : ForwardRuntimeConfig)
    (w : TunnelStartWorld) (hr : s.running config.id = none) :
    (∀ f : BindFailure, w.precheck = some f →
      (tmStart s config w).2.2 =
        .error (buildStartError .localPortPrecheck config f.message f.code) ∧
      ∃ c, (tmStart s config w).1.statuses config.id = some c ∧
        c.status = .error ∧
        c.error = some (buildStartError .localPortPrecheck config f.message f.code) ∧
        c.reconnectAt = some (w.now + 5000) ∧
        (tmStart s config w).1.reconnectTimers config.id = some (w.now + 5000))
  ∧ (∀ f : BindFailure, w.precheck = none → w.connect = none → w.listen = some f →
      (tmStart s config w).2.2 =
        .error (buildStartError .localListen config f.message f.code) ∧
      ∃ c, (tmStart s config w).1.statuses config.id = some c ∧
        c.status = .error ∧
        c.error = some (buildStartError .localListen config f.message f.code) ∧
        c.reconnectAt = some (w.now + 5000) ∧
        (tmStart s config w).1.reconnectTimers config.id = some (w.now + 5000))
  ∧ (∀ stage : StartStage, stage = .localPortPrecheck ∨ stage = .localListen →
      (∀ m : String,
        buildStartError stage config m (some "EADDRINUSE") =
          "Local port " ++ toString config.localPort ++ " on " ++ config.localHost
            ++ " is already in use." ∧
        strContains "already in use" (buildStartError stage config m (some "EADDRINUSE")) ∧
        strContains config.localHost (buildStartError stage config m (some "EADDRINUSE")) ∧
        strContains (toString config.localPort)
          (buildStartError stage config m (some "EADDRINUSE")))
      ∧ (∀ m : String,
        buildStartError stage config m (some "EACCES") =
          "Permission denied when binding " ++ config.localHost ++ ":"
            ++ toString config.localPort ++ "." ∧
        strContains "Permission denied" (buildStartError stage config m (some "EACCES")) ∧
        strContains config.localHost (buildStartError stage config m (some "EACCES")))
      ∧ (∀ (m : String) (code : Option String),
        code ≠ some "EADDRINUSE" → code ≠ some "EACCES" →
        buildStartError stage config m code =
          "Failed to bind local listener on " ++ config.localHost ++ ":"
            ++ toString config.localPort ++ ": " ++ m)) := by
  refine ⟨?_, ?_, ?_⟩
  · intro f hpc
    obtain ⟨h1, h2, h3⟩ := tmStart_precheck_failure s config w hr f hpc
    exact ⟨h1, _, h2, rfl, rfl, rfl, h3⟩
  · intro f hpc hcn hls
    obtain ⟨h1, h2, h3⟩ := tmStart_listen_failure s config w hr f hpc hcn hls
    exact ⟨h1, _, h2, rfl, rfl, rfl, h3⟩
  · intro stage hstage
    have hb : ∀ m code, buildStartError stage config m code =
        if code = some "EADDRINUSE" then
          "Local port " ++ toString config.localPort ++ " on " ++ config.localHost
            ++ " is already in use."
        else if code = some "EACCES" then
          "Permission denied when binding " ++ config.localHost ++ ":"
            ++ toString config.localPort ++ "."
        else
          "Failed to bind local listener on " ++ config.localHost ++ ":"
            ++ toString config.localPort ++ ": " ++ m := by
      intro m code
      unfold buildStartError
      rw [if_pos hstage]
    refine ⟨?_, ?_, ?_⟩
    · intro m
      have heq : buildStartError stage config m (some "EADDRINUSE") =
          "Local port " ++ toString config.localPort ++ " on " ++ config.localHost
            ++ " is already in use." := by
        rw [hb]
        exact if_pos rfl
      refine ⟨heq, ?_, ?_, ?_⟩
      · refine ⟨"Local port " ++ toString config.localPort ++ " on "
          ++ config.localHost ++ " is ", ".", ?_⟩
        rw [heq]
        simp only [String.append_assoc]
        rfl
      · refine ⟨"Local port " ++ toString config.localPort ++ " on ",
          " is already in use.", ?_⟩
        rw [heq]
        simp only [String.append_assoc]
      · refine ⟨"Local port ",
          " on " ++ (config.localHost ++ " is already in use."), ?_⟩
        rw [heq]
        simp only [String.append_assoc]
    · intro m
      have heq : buildStartError stage config m (some "EACCES") =
          "Permission denied when binding " ++ config.localHost ++ ":"
            ++ toString config.localPort ++ "." := by
        rw [hb]
        rw [if_neg (by decide), if_pos rfl]
      refine ⟨heq, ?_, ?_⟩
      · refine ⟨"", " when binding " ++ (config.localHost ++ (":"
          ++ (toString config.localPort ++ "."))), ?_⟩
        rw [heq]
        simp only [String.append_assoc]
        rfl
      · refine ⟨"Permission denied when binding ",
          ":" ++ (toString config.localPort ++ "."), ?_⟩
        rw [heq]
        simp only [String.append_assoc]
    · intro m code hc1 hc2
      rw [hb]
      rw [if_neg hc1, if_neg hc2]

def wAddrInUse : TunnelStartWorld :=
  { precheck := some
      { code := some "EADDRINUSE"
        message := "listen EADDRINUSE: address already in use 127.0.0.1:5432" }
    connect := none, listen := none, connId := 0, now := 100000 }

theorem tunnel_bind_failure_classification_witness :
    (tmStart TMState.initial demoRuntimeCfg wAddrInUse).2.2 =
      .error (buildStartError .localPortPrecheck demoRuntimeCfg
        "listen EADDRINUSE: address already in use 127.0.0.1:5432" (some "EADDRINUSE")) ∧
    (tmStart TMState.initial demoRuntimeCfg wAddrInUse).1.reconnectTimers "r1"
      = some 105000 ∧
    buildStartError .localPortPrecheck demoRuntimeCfg "m" (some "EADDRINUSE") =
      "Local port 5432 on 127.0.0.1 is already in use." ∧
    strContains "already in use"
      (buildStartError .localPortPrecheck demoRuntimeCfg "m" (some "EADDRINUSE")) := by
  have h := tunnel_bind_failure_classification TMState.initial demoRuntimeCfg wAddrInUse rfl
  have h1 := h.1 _ rfl
  have h3 := (h.2.2 .localPortPrecheck (Or.inl rfl)).1 "m"
  refine ⟨h1.1, ?_, h3.1.trans (by decide), h3.2.1⟩
  obtain ⟨c, hc, hs, he, hra, ht⟩ := h1.2
  exact ht
